import Mathlib

/-!
Verification of the windowed inference serving protocol of `src/predict.py`
(TempoTrail). The Python code is shallowly embedded: the demo time series is a
`List Sample`, Python floats are rationals, Python `int()` truncation is
`pyInt`, and the two Flask handlers `demo_predict_api` / `demo_data_api`
become total functions from an explicit server state and an optional request
parameter to an `Except` value mirroring the JSON error classes.
-/

namespace TempoTrail

/-- One row of `demo_item_df`: absolute `timestamp` (integer seconds),
`origin_timestamp` (timestamp minus the timestamp of the first row, as
computed by the loader), `heart_rate` and `speed` (rationals standing for the
Python floats). -/
structure Sample where
  timestamp : Int
  origin_timestamp : Int
  heart_rate : ℚ
  speed : ℚ
  deriving DecidableEq, Repr

instance : Inhabited Sample := ⟨⟨0, 0, 0, 0⟩⟩

/-- Modelled from the spec: the `FitRecSpeedPredictor` class lives in
`model.py`, which is not among the sources; per the spec it is an opaque
deterministic capability mapping a `(speed, heart_rate)` window to one scalar
speed, with the configuration fields `sampling_rate`, `window_duration`,
`prediction_duration` read by `demo_predict_api`, and a possibly absent
underlying `model`. -/
structure Predictor where
  model : Option (List (ℚ × ℚ) → ℚ)
  sampling_rate : ℚ
  window_duration : ℚ
  prediction_duration : ℚ

/-- The module-level mutable state of `predict.py`: the globals `predictor`
and `demo_item_df`, each possibly `None`. -/
structure ServerState where
  predictor : Option Predictor
  demo_item_df : Option (List Sample)

/-- The error classes a handler can answer with, one per distinct `jsonify`
error return of `predict.py`. -/
inductive PredictError where
  | notInitialized
  | missingParameter
  | invalidParameter
  | indexOutOfRange
  | configurationError
  | insufficientWindow
  | invalidInputShape
  deriving DecidableEq, Repr

/-- The HTTP status code each error return of `predict.py` carries. -/
def statusOf : PredictError → Nat
  | .notInitialized => 500
  | .missingParameter => 400
  | .invalidParameter => 400
  | .indexOutOfRange => 400
  | .configurationError => 500
  | .insufficientWindow => 400
  | .invalidInputShape => 500

/-- The four fields of the success body of `/demo_predict`. -/
structure PredictResponse where
  predicted_speed : ℚ
  next_idx : Int
  current_input_end_origin_timestamp : ℚ
  next_idx_origin_timestamp : ℚ
  deriving DecidableEq, Repr

instance {ε α : Type} [DecidableEq ε] [DecidableEq α] : DecidableEq (Except ε α) :=
  fun a b =>
    match a, b with
    | .error e, .error e' =>
      if h : e = e' then isTrue (by rw [h]) else isFalse fun hc => h (Except.error.inj hc)
    | .ok x, .ok y =>
      if h : x = y then isTrue (by rw [h]) else isFalse fun hc => h (Except.ok.inj hc)
    | .error _, .ok _ => isFalse Except.noConfusion
    | .ok _, .error _ => isFalse Except.noConfusion

/-- Python `int(x)` applied to a float: truncation toward zero. -/
def pyInt (q : ℚ) : Int := if q < 0 then -⌊-q⌋ else ⌊q⌋

/-- `model_window_samples = int(predictor.window_duration / predictor.sampling_rate)`
(predict.py line 266). -/
def windowSamples (p : Predictor) : Int :=
  pyInt (p.window_duration / p.sampling_rate)

/-- `samples_to_advance = int(predictor.prediction_duration / predictor.sampling_rate)`
followed by `if samples_to_advance <= 0: samples_to_advance = 1`
(predict.py lines 290-292). -/
def advanceSamples (p : Predictor) : Int :=
  if pyInt (p.prediction_duration / p.sampling_rate) ≤ 0 then 1
  else pyInt (p.prediction_duration / p.sampling_rate)

/-- The trailing window `demo_item_df.iloc[max(0, idx - ws + 1) : idx + 1]`
(predict.py lines 271-272), as a Python slice: drop the start, take the
difference. Like `iloc`, out-of-range bounds clamp. -/
def windowSlice (df : List Sample) (idx ws : Int) : List Sample :=
  (df.drop (max 0 (idx - ws + 1)).toNat).take ((idx + 1) - max 0 (idx - ws + 1)).toNat

/-- The final shape validation of the prepared input array together with the
call into the opaque model (predict.py lines 281-288): a shape mismatch
answers `invalidInputShape` and the model is not called; otherwise the model
runs on the input. The second component records every input the underlying
model is actually invoked on. -/
def runModelWithShapeCheck (m : List (ℚ × ℚ) → ℚ) (ws : Int)
    (input : List (ℚ × ℚ)) : Except PredictError ℚ × List (List (ℚ × ℚ)) :=
  if (input.length : Int) ≠ ws then (.error .invalidInputShape, [])
  else (.ok (m input), [input])

/-- The body of `demo_predict_api` after a present, parsed `idx` (predict.py
lines 261-308): bounds check, configuration checks, window extraction and
sufficiency check, shape-checked model call, then the advance/clamp
arithmetic and the response, including the `-1.0` fallback for
`next_idx_origin_timestamp`. -/
def predictCore (p : Predictor) (m : List (ℚ × ℚ) → ℚ) (df : List Sample)
    (idx : Int) : Except PredictError PredictResponse × List (List (ℚ × ℚ)) :=
  if ¬ (0 ≤ idx ∧ idx < (df.length : Int)) then (.error .indexOutOfRange, [])
  else if p.sampling_rate ≤ 0 then (.error .configurationError, [])
  else if windowSamples p ≤ 0 then (.error .configurationError, [])
  else if ((windowSlice df idx (windowSamples p)).length : Int) < windowSamples p then
    (.error .insufficientWindow, [])
  else
    ((runModelWithShapeCheck m (windowSamples p)
        ((windowSlice df idx (windowSamples p)).map fun s => (s.speed, s.heart_rate))).1.map
      fun predicted =>
        { predicted_speed := predicted
          next_idx := min (idx + advanceSamples p) ((df.length : Int) - 1)
          current_input_end_origin_timestamp :=
            ((df.getD idx.toNat default).origin_timestamp : ℚ)
          next_idx_origin_timestamp :=
            if 0 ≤ min (idx + advanceSamples p) ((df.length : Int) - 1) ∧
                min (idx + advanceSamples p) ((df.length : Int) - 1) < (df.length : Int) then
              ((df.getD (min (idx + advanceSamples p) ((df.length : Int) - 1)).toNat
                  default).origin_timestamp : ℚ)
            else (-1 : ℚ) },
     (runModelWithShapeCheck m (windowSamples p)
        ((windowSlice df idx (windowSamples p)).map fun s => (s.speed, s.heart_rate))).2)

/-- The `/demo_predict` handler (predict.py lines 249-308) together with the
list of inputs passed to the underlying model. The request parameter is
`none` when `idx` is absent and `some none` when it does not parse as an
integer (the `ValueError` path of line 260/311). -/
def demo_predict_run (st : ServerState) (idxParam : Option (Option Int)) :
    Except PredictError PredictResponse × List (List (ℚ × ℚ)) :=
  match st.predictor with
  | none => (.error .notInitialized, [])
  | some p =>
    match p.model with
    | none => (.error .notInitialized, [])
    | some m =>
      match st.demo_item_df with
      | none => (.error .notInitialized, [])
      | some df =>
        if df.isEmpty then (.error .notInitialized, [])
        else
          match idxParam with
          | none => (.error .missingParameter, [])
          | some none => (.error .invalidParameter, [])
          | some (some idx) => predictCore p m df idx

/-- The response of the `/demo_predict` handler. -/
def demo_predict_api (st : ServerState) (idxParam : Option (Option Int)) :
    Except PredictError PredictResponse :=
  (demo_predict_run st idxParam).1

/-! Window extractor lemmas. -/

theorem windowSlice_length_full (df : List Sample) (idx ws : Int)
    (hws : 1 ≤ ws) (hle : ws ≤ idx + 1) (hlen : idx + 1 ≤ (df.length : Int)) :
    ((windowSlice df idx ws).length : Int) = ws := by
  unfold windowSlice
  rw [List.length_take, List.length_drop]
  omega

theorem windowSlice_length_short (df : List Sample) (idx ws : Int)
    (h0 : 0 ≤ idx) (hlen : idx + 1 ≤ (df.length : Int)) (hsh : idx + 1 ≤ ws) :
    ((windowSlice df idx ws).length : Int) = idx + 1 := by
  unfold windowSlice
  rw [List.length_take, List.length_drop]
  omega

theorem windowSlice_getLast (df : List Sample) (idx ws : Int)
    (hws : 1 ≤ ws) (hle : ws ≤ idx + 1) (hlen : idx + 1 ≤ (df.length : Int)) :
    (windowSlice df idx ws).getLast? = df[idx.toNat]? := by
  have hL := windowSlice_length_full df idx ws hws hle hlen
  rw [List.getLast?_eq_getElem?]
  unfold windowSlice at hL ⊢
  rw [List.getElem?_take, if_pos (by omega), List.getElem?_drop]
  congr 1
  omega

/-- Claim C1: for `window_samples ≤ idx+1 ≤ length`, the extracted window —
`windowSlice`, the literal translation of
`demo_item_df.iloc[max(0, idx - model_window_samples + 1) : idx + 1]` — has
length exactly `window_samples`, and its last element is the sample at `idx`. -/
theorem c1_window_extraction (df : List Sample) (idx ws : Int)
    (hws : 1 ≤ ws) (hle : ws ≤ idx + 1) (hlen : idx + 1 ≤ (df.length : Int)) :
    ((windowSlice df idx ws).length : Int) = ws ∧
      (windowSlice df idx ws).getLast? = df[idx.toNat]? :=
  ⟨windowSlice_length_full df idx ws hws hle hlen,
   windowSlice_getLast df idx ws hws hle hlen⟩

/-! The dataset loader `load_demo_data` (predict.py lines 168-193), for a
session already reduced to its three required columns. A raw row is
`(timestamp, heart_rate, speed)`. `df.sort_values('timestamp')` is modelled
as a sort by the first component. -/

/-- Ordering of raw rows by timestamp. -/
def tsLE (a b : Int × ℚ × ℚ) : Prop := a.1 ≤ b.1

instance : DecidableRel tsLE := fun a b => inferInstanceAs (Decidable (a.1 ≤ b.1))

instance : IsTotal (Int × ℚ × ℚ) tsLE := ⟨fun a b => Int.le_total a.1 b.1⟩

instance : IsTrans (Int × ℚ × ℚ) tsLE := ⟨fun _ _ _ h1 h2 => le_trans h1 h2⟩

/-- `df.sort_values('timestamp')`. -/
def sortByTimestamp (rows : List (Int × ℚ × ℚ)) : List (Int × ℚ × ℚ) :=
  List.insertionSort tsLE rows

/-- `load_demo_data` after column extraction (predict.py lines 179-193): sort
by timestamp, fail on an empty frame, derive
`origin_timestamp = timestamp - timestamp.iloc[0]`, then clean with
`(speed >= 0) & (heart_rate > 0)` and fail if nothing remains. -/
def load_demo_data (rows : List (Int × ℚ × ℚ)) : Option (List Sample) :=
  match sortByTimestamp rows with
  | [] => none
  | first :: rest =>
    let cleaned := ((first :: rest).map fun r =>
        ({ timestamp := r.1, origin_timestamp := r.1 - first.1,
           heart_rate := r.2.1, speed := r.2.2 } : Sample)).filter
      fun s => decide (0 ≤ s.speed) && decide (0 < s.heart_rate)
    if cleaned.isEmpty then none else some cleaned

/-! Nearest-time lookup:
`(demo_item_df['origin_timestamp'] - t).abs().idxmin()` (predict.py line 331).
`idxmin` returns the position of the first occurrence of the minimum. -/

/-- One step of the first-occurrence argmin scan: combine the head value with
the argmin of the tail; the head wins ties. -/
def idxminStep (x : ℚ) : Option (Nat × ℚ) → Nat × ℚ
  | none => (0, x)
  | some (j, v) => if v < x then (j + 1, v) else (0, x)

/-- First-occurrence argmin over a list of values, returning the index and
the minimal value. -/
def idxmin : List ℚ → Option (Nat × ℚ)
  | [] => none
  | x :: xs => some (idxminStep x (idxmin xs))

/-- `(demo_item_df['origin_timestamp'] - t).abs().idxmin()`. -/
def nearestByOriginTimestamp (df : List Sample) (t : ℚ) : Option Nat :=
  (idxmin (df.map fun s => |(s.origin_timestamp : ℚ) - t|)).map Prod.fst

/-- The `/demo_data` handler (predict.py lines 317-344): it checks only the
demo dataframe (not the predictor), validates `t`, and returns the full row
nearest to `t` in origin-timestamp distance. -/
def demo_data_api (st : ServerState) (tParam : Option (Option ℚ)) :
    Except PredictError Sample :=
  match st.demo_item_df with
  | none => .error .notInitialized
  | some df =>
    if df.isEmpty then .error .notInitialized
    else
      match tParam with
      | none => .error .missingParameter
      | some none => .error .invalidParameter
      | some (some t) =>
        match nearestByOriginTimestamp df t with
        | some i => .ok (df.getD i default)
        | none => .error .notInitialized

/-- Demo series used to instantiate theorems on concrete data: ten samples,
one per second. -/
def demoSeries : List Sample :=
  (List.range 10).map fun i => ⟨(i : Int), (i : Int), 100, 5⟩

/-- Witness for C1 at the spec's end-to-end example: ten samples,
`window_samples = 3`, `idx = 5`. -/
theorem c1_window_extraction_witness :
    ((windowSlice demoSeries 5 3).length : Int) = 3 ∧
      (windowSlice demoSeries 5 3).getLast? = demoSeries[(5 : Int).toNat]? :=
  c1_window_extraction demoSeries 5 3 (by decide) (by decide) (by decide)

/-! Loader invariants (C5). -/

theorem sortByTimestamp_sorted (rows : List (Int × ℚ × ℚ)) :
    List.Sorted tsLE (sortByTimestamp rows) :=
  List.sorted_insertionSort tsLE rows

/-- Claim C5 (amended): every loaded sample's `origin_timestamp` is its
timestamp minus the timestamp of the first *sorted, pre-cleaning* row and is
`≥ 0`; the first loaded sample has `origin_timestamp = 0` provided the first
sorted row itself survives the cleaning filter
`(speed >= 0) & (heart_rate > 0)`. -/
theorem c5_loader_origin_amended (rows : List (Int × ℚ × ℚ)) (out : List Sample)
    (first : Int × ℚ × ℚ) (hload : load_demo_data rows = some out)
    (hfirst : (sortByTimestamp rows).head? = some first) :
    (∀ s ∈ out, s.origin_timestamp = s.timestamp - first.1 ∧ 0 ≤ s.origin_timestamp) ∧
      (0 ≤ first.2.2 ∧ 0 < first.2.1 →
        out.head?.map Sample.origin_timestamp = some 0) := by
  cases hs : sortByTimestamp rows with
  | nil => rw [hs] at hfirst; simp at hfirst
  | cons a rest =>
    rw [hs] at hfirst
    simp only [List.head?_cons, Option.some.injEq] at hfirst
    subst hfirst
    unfold load_demo_data at hload
    rw [hs] at hload
    simp only [] at hload
    split at hload
    · exact absurd hload (by simp)
    · rename_i hne
      simp only [Option.some.injEq] at hload
      subst hload
      have hsorted : List.Sorted tsLE (a :: rest) := hs ▸ sortByTimestamp_sorted rows
      have hmin : ∀ r ∈ a :: rest, a.1 ≤ r.1 := by
        intro r hr
        rcases List.mem_cons.1 hr with rfl | hr
        · exact le_refl _
        · exact (List.sorted_cons.1 hsorted).1 r hr
      constructor
      · intro s hsmem
        obtain ⟨hsmap, _⟩ := List.mem_filter.1 hsmem
        obtain ⟨r, hrmem, rfl⟩ := List.mem_map.1 hsmap
        exact ⟨rfl, by have := hmin r hrmem; simp; omega⟩
      · rintro ⟨hsp, hhr⟩
        simp only [List.map_cons, List.filter_cons]
        rw [if_pos (by simp [hsp, hhr])]
        simp

/-- Witness for C5 (amended): two clean rows; the loaded samples carry
origins 0 and 3 relative to the first sorted row. -/
theorem c5_loader_origin_amended_witness :
    (∀ s ∈ [(⟨0, 0, 1, 1⟩ : Sample), ⟨3, 3, 2, 1⟩],
      s.origin_timestamp = s.timestamp - ((0, 1, 1) : Int × ℚ × ℚ).1 ∧
        0 ≤ s.origin_timestamp) ∧
      (0 ≤ ((0, 1, 1) : Int × ℚ × ℚ).2.2 ∧ 0 < ((0, 1, 1) : Int × ℚ × ℚ).2.1 →
        ([(⟨0, 0, 1, 1⟩ : Sample), ⟨3, 3, 2, 1⟩].head?).map Sample.origin_timestamp =
          some 0) :=
  c5_loader_origin_amended [(0, 1, 1), (3, 2, 1)] [⟨0, 0, 1, 1⟩, ⟨3, 3, 2, 1⟩]
    (0, 1, 1) (by decide) (by decide)

/-- Counterexample to C5 as stated: with raw rows `(10, hr 0, speed 1)` and
`(20, hr 5, speed 1)`, the first sorted row is removed by the cleaning filter
(`heart_rate > 0` fails), so the loaded series' first sample has
`origin_timestamp = 10`, not `0`. -/
theorem c5_loader_origin_counterexample :
    ((load_demo_data [(10, 0, 1), (20, 5, 1)]).bind List.head?).map
        Sample.origin_timestamp = some 10 ∧
      ((load_demo_data [(10, 0, 1), (20, 5, 1)]).bind List.head?).map
        Sample.origin_timestamp ≠ some 0 := by
  constructor <;> decide

/-! Nearest-time lookup (C4). -/

theorem idxmin_eq_none (l : List ℚ) : idxmin l = none ↔ l = [] := by
  cases l with
  | nil => simp [idxmin]
  | cons x xs => simp [idxmin]

theorem idxmin_spec (l : List ℚ) (j : Nat) (v : ℚ) (h : idxmin l = some (j, v)) :
    j < l.length ∧ l.getD j 0 = v ∧ (∀ k, k < l.length → v ≤ l.getD k 0) ∧
      (∀ k, k < j → v < l.getD k 0) := by
  induction l generalizing j v with
  | nil => simp [idxmin] at h
  | cons x xs ih =>
    rw [idxmin] at h
    cases hxs : idxmin xs with
    | none =>
      rw [hxs] at h
      simp only [idxminStep, Option.some.injEq, Prod.mk.injEq] at h
      obtain ⟨rfl, rfl⟩ := h
      have hnil : xs = [] := (idxmin_eq_none xs).1 hxs
      subst hnil
      refine ⟨by simp, by simp, ?_, by omega⟩
      intro k hk
      simp only [List.length_cons, List.length_nil] at hk
      have hk0 : k = 0 := by omega
      subst hk0
      simp
    | some jv =>
      obtain ⟨j', v'⟩ := jv
      rw [hxs] at h
      simp only [idxminStep, Option.some.injEq] at h
      obtain ⟨hlen, hget, hminv, hfirst⟩ := ih j' v' hxs
      by_cases hlt : v' < x
      · rw [if_pos hlt] at h
        injection h with h1 h2
        subst h1
        subst h2
        refine ⟨by simpa using hlen, by simpa using hget, ?_, ?_⟩
        · intro k hk
          cases k with
          | zero => simpa using le_of_lt hlt
          | succ k => simpa using hminv k (by simpa using hk)
        · intro k hk
          cases k with
          | zero => simpa using hlt
          | succ k => simpa using hfirst k (by omega)
      · rw [if_neg hlt] at h
        injection h with h1 h2
        subst h1
        subst h2
        push_neg at hlt
        refine ⟨by simp, by simp, ?_, by omega⟩
        intro k hk
        cases k with
        | zero => simp
        | succ k => simpa using le_trans hlt (hminv k (by simpa using hk))

theorem getD_map_default (f : Sample → ℚ) (l : List Sample) (k : Nat)
    (hk : k < l.length) : (l.map f).getD k 0 = f (l.getD k default) := by
  induction l generalizing k with
  | nil => simp at hk
  | cons a l ih =>
    cases k with
    | zero => simp
    | succ k => simpa using ih k (by simpa using hk)

/-- Series with origin timestamps `[0, 2, 5]`, the spec's worked example for
the nearest-time lookup. -/
def c4demo : List Sample := [⟨0, 0, 100, 1⟩, ⟨2, 2, 100, 1⟩, ⟨5, 5, 100, 1⟩]

unseal Rat.mul Rat.inv Rat.add Rat.sub in
/-- Claim C4: the nearest-time lookup returns the index whose
`origin_timestamp` minimizes the absolute distance to `t`, ties resolved to
the earliest index; in particular on origin timestamps `[0, 2, 5]` the query
`t = 3` resolves to index 1, and `t = 3.5` (a tie between indices 1 and 2)
also resolves to index 1. -/
theorem c4_nearest_lookup :
    (∀ (df : List Sample) (t : ℚ), df ≠ [] →
      ∃ i, nearestByOriginTimestamp df t = some i ∧ i < df.length ∧
        (∀ k, k < df.length →
          |((df.getD i default).origin_timestamp : ℚ) - t| ≤
            |((df.getD k default).origin_timestamp : ℚ) - t|) ∧
        (∀ k, k < i →
          |((df.getD i default).origin_timestamp : ℚ) - t| <
            |((df.getD k default).origin_timestamp : ℚ) - t|)) ∧
      nearestByOriginTimestamp c4demo 3 = some 1 ∧
      nearestByOriginTimestamp c4demo (7/2) = some 1 := by
  refine ⟨?_, ?_, ?_⟩
  · intro df t hne
    cases hidx : idxmin (df.map fun s => |(s.origin_timestamp : ℚ) - t|) with
    | none =>
      rw [idxmin_eq_none, List.map_eq_nil_iff] at hidx
      exact absurd hidx hne
    | some jv =>
      obtain ⟨j, v⟩ := jv
      obtain ⟨hlen, hget, hminv, hfirst⟩ := idxmin_spec _ j v hidx
      rw [List.length_map] at hlen
      refine ⟨j, by rw [nearestByOriginTimestamp, hidx]; rfl, hlen, ?_, ?_⟩
      · intro k hk
        have h1 := hminv k (by simpa using hk)
        rw [getD_map_default _ _ _ hk] at h1
        rw [getD_map_default _ _ _ hlen] at hget
        rw [hget]
        exact h1
      · intro k hk
        have h1 := hfirst k hk
        rw [getD_map_default _ _ _ (lt_trans hk hlen)] at h1
        rw [getD_map_default _ _ _ hlen] at hget
        rw [hget]
        exact h1
  · decide
  · decide

/-- Witness for C4: the general argmin property applied to the `[0, 2, 5]`
series at `t = 3`. -/
theorem c4_nearest_lookup_witness :
    ∃ i, nearestByOriginTimestamp c4demo 3 = some i ∧ i < c4demo.length ∧
      (∀ k, k < c4demo.length →
        |((c4demo.getD i default).origin_timestamp : ℚ) - 3| ≤
          |((c4demo.getD k default).origin_timestamp : ℚ) - 3|) ∧
      (∀ k, k < i →
        |((c4demo.getD i default).origin_timestamp : ℚ) - 3| <
          |((c4demo.getD k default).origin_timestamp : ℚ) - 3|) :=
  c4_nearest_lookup.1 c4demo 3 (by decide)

/-! Predict-handler lemmas shared by several claims. -/

theorem isEmpty_false_of_bounds (df : List Sample) (idx : Int)
    (h0 : 0 ≤ idx) (hlt : idx < (df.length : Int)) : df.isEmpty = false := by
  cases df with
  | nil => simp only [List.length_nil, Nat.cast_zero] at hlt; omega
  | cons a l => rfl

theorem one_le_advanceSamples (p : Predictor) : 1 ≤ advanceSamples p := by
  unfold advanceSamples
  split <;> omega

/-- The advance stride computed by lines 290-292 (`int()` truncation, then
clamping non-positive values to 1) agrees with `max 1 ⌊pd / sr⌋`. -/
theorem advanceSamples_eq_max_floor (p : Predictor) :
    advanceSamples p = max 1 ⌊p.prediction_duration / p.sampling_rate⌋ := by
  unfold advanceSamples pyInt
  set q := p.prediction_duration / p.sampling_rate with hq
  by_cases hneg : q < 0
  · have h1 : 0 ≤ ⌊-q⌋ := Int.floor_nonneg.2 (by linarith)
    have h2 : ⌊q⌋ ≤ 0 := Int.floor_nonpos (le_of_lt hneg)
    rw [if_pos hneg, if_pos (by omega)]
    omega
  · push_neg at hneg
    have h1 : 0 ≤ ⌊q⌋ := Int.floor_nonneg.2 hneg
    rw [if_neg (not_lt.2 hneg)]
    by_cases hz : ⌊q⌋ ≤ 0
    · rw [if_pos hz]; omega
    · rw [if_neg hz]; omega

theorem runModel_calls_length (m : List (ℚ × ℚ) → ℚ) (ws : Int)
    (input : List (ℚ × ℚ)) :
    ∀ r ∈ (runModelWithShapeCheck m ws input).2, (r.length : Int) = ws := by
  intro r hr
  unfold runModelWithShapeCheck at hr
  by_cases hcond : (input.length : Int) ≠ ws
  · rw [if_pos hcond] at hr; simp at hr
  · rw [if_neg hcond] at hr
    simp only [List.mem_singleton] at hr
    subst hr
    omega

/-- When every validation of `demo_predict_api` passes, the handler succeeds
with the fully evaluated response, and the model is called exactly once, on
the `(speed, heart_rate)` pairs of the extracted window. -/
theorem predictCore_ok (p : Predictor) (m : List (ℚ × ℚ) → ℚ) (df : List Sample)
    (idx : Int) (h0 : 0 ≤ idx) (hlt : idx < (df.length : Int))
    (hsr : 0 < p.sampling_rate) (hws : 1 ≤ windowSamples p)
    (hle : windowSamples p ≤ idx + 1) :
    predictCore p m df idx =
      (.ok { predicted_speed :=
               m ((windowSlice df idx (windowSamples p)).map fun s => (s.speed, s.heart_rate))
             next_idx := min (idx + advanceSamples p) ((df.length : Int) - 1)
             current_input_end_origin_timestamp :=
               ((df.getD idx.toNat default).origin_timestamp : ℚ)
             next_idx_origin_timestamp :=
               ((df.getD (min (idx + advanceSamples p) ((df.length : Int) - 1)).toNat
                   default).origin_timestamp : ℚ) },
       [(windowSlice df idx (windowSamples p)).map fun s => (s.speed, s.heart_rate)]) := by
  have hwlen := windowSlice_length_full df idx (windowSamples p) hws hle (by omega)
  have hadv := one_le_advanceSamples p
  have hmin0 : 0 ≤ min (idx + advanceSamples p) ((df.length : Int) - 1) := by omega
  have hminlt : min (idx + advanceSamples p) ((df.length : Int) - 1) < (df.length : Int) := by
    omega
  have hlenmap :
      (((windowSlice df idx (windowSamples p)).map fun s =>
        (s.speed, s.heart_rate)).length : Int) = windowSamples p := by
    rw [List.length_map]; exact hwlen
  have hrun : runModelWithShapeCheck m (windowSamples p)
      ((windowSlice df idx (windowSamples p)).map fun s => (s.speed, s.heart_rate)) =
      (.ok (m ((windowSlice df idx (windowSamples p)).map fun s => (s.speed, s.heart_rate))),
       [(windowSlice df idx (windowSamples p)).map fun s => (s.speed, s.heart_rate)]) := by
    unfold runModelWithShapeCheck
    rw [if_neg (by omega)]
  unfold predictCore
  rw [if_neg (by omega : ¬ ¬ (0 ≤ idx ∧ idx < (df.length : Int))),
    if_neg (not_le.2 hsr), if_neg (by omega : ¬ windowSamples p ≤ 0),
    if_neg (by omega :
      ¬ ((windowSlice df idx (windowSamples p)).length : Int) < windowSamples p),
    hrun]
  simp only [Except.map]
  rw [if_pos ⟨hmin0, hminlt⟩]

/-- A successful `predictCore` run implies every validation passed; in
particular the index is in bounds, the configuration is sane, and the window
is complete. -/
theorem predictCore_ok_inv (p : Predictor) (m : List (ℚ × ℚ) → ℚ)
    (df : List Sample) (idx : Int) (resp : PredictResponse)
    (h : (predictCore p m df idx).1 = .ok resp) :
    0 ≤ idx ∧ idx < (df.length : Int) ∧ 0 < p.sampling_rate ∧
      1 ≤ windowSamples p ∧ windowSamples p ≤ idx + 1 := by
  unfold predictCore at h
  by_cases h1 : ¬ (0 ≤ idx ∧ idx < (df.length : Int))
  · rw [if_pos h1] at h; simp at h
  · rw [if_neg h1] at h
    push_neg at h1
    by_cases h2 : p.sampling_rate ≤ 0
    · rw [if_pos h2] at h; simp at h
    · rw [if_neg h2] at h
      by_cases h3 : windowSamples p ≤ 0
      · rw [if_pos h3] at h; simp at h
      · rw [if_neg h3] at h
        by_cases h4 : ((windowSlice df idx (windowSamples p)).length : Int) < windowSamples p
        · rw [if_pos h4] at h; simp at h
        · refine ⟨h1.1, h1.2, lt_of_not_le h2, by omega, ?_⟩
          by_contra hgt
          push_neg at hgt
          have := windowSlice_length_short df idx (windowSamples p) h1.1 (by omega) (by omega)
          omega

/-- Opaque demo model: constant zero. -/
def m0 : List (ℚ × ℚ) → ℚ := fun _ => 0

/-- Demo configuration: one sample per second, three seconds of history, two
seconds of look-ahead (so `window_samples = 3`, `advance_samples = 2`). -/
def p0 : Predictor := ⟨some m0, 1, 3, 2⟩

/-- Fully initialized demo state. -/
def st0 : ServerState := ⟨some p0, some demoSeries⟩

/-- Claim C2: whenever a predict request with a valid `idx` reaches step 7
(all earlier validations pass, so the handler succeeds), it returns
`next_idx = min(idx + advance_samples, length - 1)` with
`advance_samples = max(1, floor(prediction_duration / sampling_rate))`;
`next_idx` lies in `[idx, length - 1]`, and when
`idx + advance_samples ≥ length` it saturates to `length - 1` instead of
failing. -/
theorem c2_next_idx (st : ServerState) (p : Predictor) (m : List (ℚ × ℚ) → ℚ)
    (df : List Sample) (idx : Int)
    (hp : st.predictor = some p) (hm : p.model = some m)
    (hdf : st.demo_item_df = some df)
    (h0 : 0 ≤ idx) (hlt : idx < (df.length : Int)) (hsr : 0 < p.sampling_rate)
    (hws : 1 ≤ windowSamples p) (hle : windowSamples p ≤ idx + 1) :
    ∃ resp, demo_predict_api st (some (some idx)) = .ok resp ∧
      advanceSamples p = max 1 ⌊p.prediction_duration / p.sampling_rate⌋ ∧
      resp.next_idx =
        min (idx + max 1 ⌊p.prediction_duration / p.sampling_rate⌋)
          ((df.length : Int) - 1) ∧
      idx ≤ resp.next_idx ∧ resp.next_idx ≤ (df.length : Int) - 1 ∧
      ((df.length : Int) ≤ idx + max 1 ⌊p.prediction_duration / p.sampling_rate⌋ →
        resp.next_idx = (df.length : Int) - 1) := by
  have hne := isEmpty_false_of_bounds df idx h0 hlt
  have hok := predictCore_ok p m df idx h0 hlt hsr hws hle
  have hadv := advanceSamples_eq_max_floor p
  have hadv1 := one_le_advanceSamples p
  refine ⟨{ predicted_speed :=
              m ((windowSlice df idx (windowSamples p)).map fun s => (s.speed, s.heart_rate))
            next_idx := min (idx + advanceSamples p) ((df.length : Int) - 1)
            current_input_end_origin_timestamp :=
              ((df.getD idx.toNat default).origin_timestamp : ℚ)
            next_idx_origin_timestamp :=
              ((df.getD (min (idx + advanceSamples p) ((df.length : Int) - 1)).toNat
                  default).origin_timestamp : ℚ) }, ?_, hadv, ?_, ?_, ?_, ?_⟩
  · unfold demo_predict_api demo_predict_run
    simp only [hp, hm, hdf, hne, Bool.false_eq_true, if_false, hok]
  · show min (idx + advanceSamples p) ((df.length : Int) - 1) = _
    rw [hadv]
  · show idx ≤ min (idx + advanceSamples p) ((df.length : Int) - 1)
    omega
  · show min (idx + advanceSamples p) ((df.length : Int) - 1) ≤ (df.length : Int) - 1
    omega
  · intro hsat
    show min (idx + advanceSamples p) ((df.length : Int) - 1) = (df.length : Int) - 1
    omega

unseal Rat.mul Rat.inv Rat.add Rat.sub in
/-- Witness for C2: the spec's end-to-end example — ten samples,
`window_samples = 3`, `advance_samples = 2`, `idx = 5` — succeeds with
`next_idx = 7`. -/
theorem c2_next_idx_witness :
    ∃ resp, demo_predict_api st0 (some (some 5)) = .ok resp ∧
      advanceSamples p0 = max 1 ⌊p0.prediction_duration / p0.sampling_rate⌋ ∧
      resp.next_idx =
        min (5 + max 1 ⌊p0.prediction_duration / p0.sampling_rate⌋)
          ((demoSeries.length : Int) - 1) ∧
      (5 : Int) ≤ resp.next_idx ∧ resp.next_idx ≤ (demoSeries.length : Int) - 1 ∧
      ((demoSeries.length : Int) ≤ 5 + max 1 ⌊p0.prediction_duration / p0.sampling_rate⌋ →
        resp.next_idx = (demoSeries.length : Int) - 1) :=
  c2_next_idx st0 p0 m0 demoSeries 5 rfl rfl rfl (by decide) (by decide)
    (by decide) (by decide) (by decide)

/-- Claim C3: a valid index with too little history (`idx < window_samples - 1`)
makes the predict operation fail with `InsufficientWindow`, reported as a
client error (400); no zero-padding happens. -/
theorem c3_insufficient_window (st : ServerState) (p : Predictor)
    (m : List (ℚ × ℚ) → ℚ) (df : List Sample) (idx : Int)
    (hp : st.predictor = some p) (hm : p.model = some m)
    (hdf : st.demo_item_df = some df)
    (h0 : 0 ≤ idx) (hlt : idx < (df.length : Int)) (hsr : 0 < p.sampling_rate)
    (hws : 1 ≤ windowSamples p) (hshort : idx < windowSamples p - 1) :
    demo_predict_api st (some (some idx)) = .error .insufficientWindow ∧
      statusOf .insufficientWindow = 400 := by
  have hne := isEmpty_false_of_bounds df idx h0 hlt
  have hslen := windowSlice_length_short df idx (windowSamples p) h0 (by omega) (by omega)
  constructor
  · unfold demo_predict_api demo_predict_run
    simp only [hp, hm, hdf, hne, Bool.false_eq_true, if_false]
    unfold predictCore
    rw [if_neg (by omega : ¬ ¬ (0 ≤ idx ∧ idx < (df.length : Int))),
      if_neg (not_le.2 hsr), if_neg (by omega : ¬ windowSamples p ≤ 0),
      if_pos (by omega :
        ((windowSlice df idx (windowSamples p)).length : Int) < windowSamples p)]
  · rfl

unseal Rat.mul Rat.inv Rat.add Rat.sub in
/-- Witness for C3: in the demo state (`window_samples = 3`), `idx = 1` has
only two samples of history and is rejected with `InsufficientWindow`. -/
theorem c3_insufficient_window_witness :
    demo_predict_api st0 (some (some 1)) = .error .insufficientWindow ∧
      statusOf .insufficientWindow = 400 :=
  c3_insufficient_window st0 p0 m0 demoSeries 1 rfl rfl rfl (by decide)
    (by decide) (by decide) (by decide) (by decide)

/-- Claim C10: any predict request that succeeds has `next_idx` inside
`[0, length)`, so the returned `next_idx_origin_timestamp` is the actual
`origin_timestamp` of the sample at `next_idx`; the `-1.0` sentinel branch of
lines 296-300 never determines the response. -/
theorem c10_next_idx_in_bounds (st : ServerState) (p : Predictor)
    (m : List (ℚ × ℚ) → ℚ) (df : List Sample) (idx : Int) (resp : PredictResponse)
    (hp : st.predictor = some p) (hm : p.model = some m)
    (hdf : st.demo_item_df = some df)
    (h : demo_predict_api st (some (some idx)) = .ok resp) :
    0 ≤ resp.next_idx ∧ resp.next_idx < (df.length : Int) ∧
      resp.next_idx_origin_timestamp =
        ((df.getD resp.next_idx.toNat default).origin_timestamp : ℚ) := by
  unfold demo_predict_api demo_predict_run at h
  simp only [hp, hm, hdf] at h
  by_cases hemp : df.isEmpty
  · rw [if_pos hemp] at h; simp at h
  · rw [if_neg hemp] at h
    obtain ⟨h0, hlt, hsr, hws, hle⟩ := predictCore_ok_inv p m df idx resp h
    rw [predictCore_ok p m df idx h0 hlt hsr hws hle] at h
    simp only [Except.ok.injEq] at h
    subst h
    have hadv1 := one_le_advanceSamples p
    refine ⟨?_, ?_, rfl⟩
    · show 0 ≤ min (idx + advanceSamples p) ((df.length : Int) - 1)
      omega
    · show min (idx + advanceSamples p) ((df.length : Int) - 1) < (df.length : Int)
      omega

unseal Rat.mul Rat.inv Rat.add Rat.sub in
/-- Witness for C10: the successful demo prediction at `idx = 5` has
`next_idx = 7` inside the series, whose origin timestamp (7) is returned. -/
theorem c10_next_idx_in_bounds_witness :
    0 ≤ (⟨0, 7, 5, 7⟩ : PredictResponse).next_idx ∧
      (⟨0, 7, 5, 7⟩ : PredictResponse).next_idx < (demoSeries.length : Int) ∧
      (⟨0, 7, 5, 7⟩ : PredictResponse).next_idx_origin_timestamp =
        ((demoSeries.getD (⟨0, 7, 5, 7⟩ : PredictResponse).next_idx.toNat
            default).origin_timestamp : ℚ) :=
  c10_next_idx_in_bounds st0 p0 m0 demoSeries 5 ⟨0, 7, 5, 7⟩ rfl rfl rfl (by decide)

/-- Claim C6: on an initialized state, a missing `idx` fails with
`MissingParameter`, an unparsable `idx` fails with `InvalidParameter` (the
`ValueError` path), and a parsed `idx` outside `[0, length)` fails with
`IndexOutOfRange`; all three are 400 client errors. -/
theorem c6_parameter_validation (st : ServerState) (p : Predictor)
    (m : List (ℚ × ℚ) → ℚ) (df : List Sample)
    (hp : st.predictor = some p) (hm : p.model = some m)
    (hdf : st.demo_item_df = some df) (hne : df ≠ []) :
    (demo_predict_api st none = .error .missingParameter ∧
        statusOf .missingParameter = 400) ∧
      (demo_predict_api st (some none) = .error .invalidParameter ∧
        statusOf .invalidParameter = 400) ∧
      (∀ idx : Int, ¬ (0 ≤ idx ∧ idx < (df.length : Int)) →
        demo_predict_api st (some (some idx)) = .error .indexOutOfRange ∧
          statusOf .indexOutOfRange = 400) := by
  have hne' : df.isEmpty = false := by
    cases df with
    | nil => exact absurd rfl hne
    | cons a l => rfl
  refine ⟨⟨?_, rfl⟩, ⟨?_, rfl⟩, ?_⟩
  · unfold demo_predict_api demo_predict_run
    simp [hp, hm, hdf, hne']
  · unfold demo_predict_api demo_predict_run
    simp [hp, hm, hdf, hne']
  · intro idx hidx
    refine ⟨?_, rfl⟩
    unfold demo_predict_api demo_predict_run
    simp only [hp, hm, hdf, hne', Bool.false_eq_true, if_false]
    unfold predictCore
    rw [if_pos hidx]

/-- Witness for C6: the three rejections on the initialized demo state, with
the out-of-range case at `idx = -1`. -/
theorem c6_parameter_validation_witness :
    (demo_predict_api st0 none = .error .missingParameter ∧
        statusOf .missingParameter = 400) ∧
      (demo_predict_api st0 (some none) = .error .invalidParameter ∧
        statusOf .invalidParameter = 400) ∧
      (demo_predict_api st0 (some (some (-1))) = .error .indexOutOfRange ∧
        statusOf .indexOutOfRange = 400) :=
  ⟨(c6_parameter_validation st0 p0 m0 demoSeries rfl rfl rfl (by decide)).1,
   (c6_parameter_validation st0 p0 m0 demoSeries rfl rfl rfl (by decide)).2.1,
   (c6_parameter_validation st0 p0 m0 demoSeries rfl rfl rfl (by decide)).2.2
     (-1) (by decide)⟩

/-- Claim C7: the shape guard of lines 281-284: a prepared input whose first
dimension is not `window_samples` is rejected with `InvalidInputShape` and
never reaches the model, and every input the handler ever passes to the
underlying model has exactly `window_samples` rows (each row being one
`(speed, heart_rate)` pair). -/
theorem c7_input_shape :
    (∀ (m : List (ℚ × ℚ) → ℚ) (ws : Int) (input : List (ℚ × ℚ)),
      ((input.length : Int) ≠ ws →
        runModelWithShapeCheck m ws input = (.error .invalidInputShape, [])) ∧
      (∀ r ∈ (runModelWithShapeCheck m ws input).2, (r.length : Int) = ws)) ∧
    (∀ (st : ServerState) (idxParam : Option (Option Int)) (r : List (ℚ × ℚ)),
      r ∈ (demo_predict_run st idxParam).2 →
      ∃ p, st.predictor = some p ∧ (r.length : Int) = windowSamples p) := by
  constructor
  · intro m ws input
    refine ⟨?_, runModel_calls_length m ws input⟩
    intro hne
    unfold runModelWithShapeCheck
    rw [if_pos hne]
  · intro st idxParam r hr
    obtain ⟨op, od⟩ := st
    cases op with
    | none => simp [demo_predict_run] at hr
    | some p =>
      refine ⟨p, rfl, ?_⟩
      cases hm : p.model with
      | none => simp [demo_predict_run, hm] at hr
      | some m =>
        cases od with
        | none => simp [demo_predict_run, hm] at hr
        | some df =>
          simp only [demo_predict_run, hm] at hr
          by_cases hemp : df.isEmpty
          · rw [if_pos hemp] at hr; simp at hr
          · rw [if_neg hemp] at hr
            cases idxParam with
            | none => simp at hr
            | some q =>
              cases q with
              | none => simp at hr
              | some idx =>
                dsimp only at hr
                unfold predictCore at hr
                by_cases h1 : ¬ (0 ≤ idx ∧ idx < (df.length : Int))
                · rw [if_pos h1] at hr; simp at hr
                · rw [if_neg h1] at hr
                  by_cases h2 : p.sampling_rate ≤ 0
                  · rw [if_pos h2] at hr; simp at hr
                  · rw [if_neg h2] at hr
                    by_cases h3 : windowSamples p ≤ 0
                    · rw [if_pos h3] at hr; simp at hr
                    · rw [if_neg h3] at hr
                      by_cases h4 : ((windowSlice df idx (windowSamples p)).length : Int) <
                          windowSamples p
                      · rw [if_pos h4] at hr; simp at hr
                      · rw [if_neg h4] at hr
                        exact runModel_calls_length m (windowSamples p) _ r hr

/-- Witness for C7: a 1-row input offered to a shape check expecting 2 rows
is rejected with `InvalidInputShape`, and the model receives no call. -/
theorem c7_input_shape_witness :
    runModelWithShapeCheck m0 2 [(0, 0)] = (.error .invalidInputShape, []) :=
  (c7_input_shape.1 m0 2 [(0, 0)]).1 (by decide)

/-- Claim C8 (amended): `demo_predict_api` answers `NotInitialized` (500),
for every parameter, whenever the predictor, its model, or the series is
missing or the series is empty; `demo_data_api` answers `NotInitialized`
whenever the series is missing or empty, but it does not consult the
predictor. The check precedes all parameter validation. -/
theorem c8_not_initialized_amended :
    (∀ (st : ServerState) (idxParam : Option (Option Int)),
      (st.predictor = none ∨ (∃ p, st.predictor = some p ∧ p.model = none) ∨
        st.demo_item_df = none ∨ st.demo_item_df = some []) →
      demo_predict_api st idxParam = .error .notInitialized) ∧
    (∀ (st : ServerState) (tParam : Option (Option ℚ)),
      (st.demo_item_df = none ∨ st.demo_item_df = some []) →
      demo_data_api st tParam = .error .notInitialized) ∧
    statusOf .notInitialized = 500 := by
  refine ⟨?_, ?_, rfl⟩
  · rintro ⟨op, od⟩ idxParam hcond
    cases op with
    | none => simp [demo_predict_api, demo_predict_run]
    | some p =>
      cases hm : p.model with
      | none => simp [demo_predict_api, demo_predict_run, hm]
      | some m =>
        rcases hcond with hcond | ⟨p', hp', hm'⟩ | hcond | hcond
        · simp at hcond
        · simp only [Option.some.injEq] at hp'
          subst hp'
          rw [hm] at hm'
          simp at hm'
        · subst hcond
          simp [demo_predict_api, demo_predict_run, hm]
        · subst hcond
          simp [demo_predict_api, demo_predict_run, hm]
  · rintro ⟨op, od⟩ tParam hcond
    rcases hcond with hcond | hcond
    · subst hcond
      simp [demo_data_api]
    · subst hcond
      simp [demo_data_api]

/-- Witness for C8 (amended): the fully uninitialized state answers
`NotInitialized` on both endpoints even with the parameter missing. -/
theorem c8_not_initialized_witness :
    demo_predict_api ⟨none, none⟩ none = .error .notInitialized ∧
      demo_data_api ⟨none, none⟩ none = .error .notInitialized ∧
      statusOf .notInitialized = 500 :=
  ⟨c8_not_initialized_amended.1 ⟨none, none⟩ none (Or.inl rfl),
   c8_not_initialized_amended.2.1 ⟨none, none⟩ none (Or.inl rfl),
   c8_not_initialized_amended.2.2⟩

unseal Rat.mul Rat.inv Rat.add Rat.sub in
/-- Counterexample to C8 as stated: with the predictor not loaded but the
series loaded and non-empty, `/demo_data` does not fail with
`NotInitialized` — it answers the lookup, because lines 320-321 check only
`demo_item_df`. -/
theorem c8_not_initialized_counterexample :
    demo_data_api ⟨none, some [⟨0, 0, 100, 5⟩]⟩ (some (some 0)) =
        .ok ⟨0, 0, 100, 5⟩ ∧
      demo_data_api ⟨none, some [⟨0, 0, 100, 5⟩]⟩ (some (some 0)) ≠
        .error .notInitialized := by
  constructor <;> decide

/-- Claim C9: the predict operation is deterministic — two calls with the
same `idx` against the same state and model return identical outputs, field
by field. -/
theorem c9_idempotent (st : ServerState) (idxParam : Option (Option Int))
    (r1 r2 : PredictResponse)
    (h1 : demo_predict_api st idxParam = .ok r1)
    (h2 : demo_predict_api st idxParam = .ok r2) :
    r1.predicted_speed = r2.predicted_speed ∧ r1.next_idx = r2.next_idx ∧
      r1.current_input_end_origin_timestamp = r2.current_input_end_origin_timestamp ∧
      r1.next_idx_origin_timestamp = r2.next_idx_origin_timestamp := by
  have h := h1.symm.trans h2
  injection h with h
  subst h
  exact ⟨rfl, rfl, rfl, rfl⟩

unseal Rat.mul Rat.inv Rat.add Rat.sub in
/-- Witness for C9: two identical successful demo calls at `idx = 5`. -/
theorem c9_idempotent_witness :
    (⟨0, 7, 5, 7⟩ : PredictResponse).predicted_speed =
        (⟨0, 7, 5, 7⟩ : PredictResponse).predicted_speed ∧
      (⟨0, 7, 5, 7⟩ : PredictResponse).next_idx =
        (⟨0, 7, 5, 7⟩ : PredictResponse).next_idx ∧
      (⟨0, 7, 5, 7⟩ : PredictResponse).current_input_end_origin_timestamp =
        (⟨0, 7, 5, 7⟩ : PredictResponse).current_input_end_origin_timestamp ∧
      (⟨0, 7, 5, 7⟩ : PredictResponse).next_idx_origin_timestamp =
        (⟨0, 7, 5, 7⟩ : PredictResponse).next_idx_origin_timestamp :=
  c9_idempotent st0 (some (some 5)) ⟨0, 7, 5, 7⟩ ⟨0, 7, 5, 7⟩ (by decide) (by decide)

end TempoTrail
